import Mathlib

/-!
Verification of the InsightForce backend (`backend/app/main.py`), a FastAPI
retrieval-augmented question-answering service.  The embedding models the
repository's own code — intake normalization, temp-file bookkeeping, the
index lifecycle and the endpoint control flow — while the external
collaborators (URL/file document loaders, the text splitter, the embedding
provider, the FAISS store and the LLM chain) are abstracted as an oracle
record `Ext` whose calls may fail with an exception message, exactly as the
Python code treats them.
-/

set_option autoImplicit false

namespace InsightForce

/-! ## Python string primitives

Models of the CPython `str` operations `main.py` relies on, expressed over
`List Char` so they are structurally recursive. -/

/-- ASCII whitespace recognized by Python's `str.strip`/`str.isspace`. -/
def pyWs (c : Char) : Bool :=
  c == ' ' || c == '\t' || c == '\n' || c == '\r' || c == '\x0b' || c == '\x0c'

/-- Remove trailing characters satisfying `pyWs` (helper for `pyStrip`). -/
def dropTrail : List Char → List Char
  | [] => []
  | c :: l =>
    match dropTrail l with
    | [] => if pyWs c then [] else [c]
    | r => c :: r

/-- Python `s.strip()`: drop leading and trailing whitespace. -/
def pyStrip (s : String) : String :=
  String.mk (dropTrail (s.data.dropWhile pyWs))

/-- Accumulator pass for `pySplit` (Python `str.split(sep)` with a one-char
separator: keeps empty fields, `"".split(sep) == [""]`). -/
def pySplitAux (sep : Char) : List Char → List Char → List (List Char)
  | [], acc => [acc.reverse]
  | c :: rest, acc =>
    if c == sep then acc.reverse :: pySplitAux sep rest []
    else pySplitAux sep rest (c :: acc)

/-- Python `s.split(sep)` for a single-character separator. -/
def pySplit (s : String) (sep : Char) : List String :=
  (pySplitAux sep s.data []).map String.mk

/-- Python `s.startswith(c)` for a single character. -/
def pyStartsWith (s : String) (c : Char) : Bool :=
  s.data.head? == some c

/-- Python `s.endswith(suffix)`. -/
def pyEndsWith (s suffix : String) : Bool :=
  List.isPrefixOf suffix.data.reverse s.data.reverse

/-! ## Data model -/

/-- A raw document produced by a loader: text plus provenance metadata. -/
structure Document where
  text : String
  source : String
deriving DecidableEq

/-- An uploaded file as the handlers see it: original filename plus bytes. -/
structure UploadFile where
  filename : String
  content : String
deriving DecidableEq

/-- `FAISS_PATH = "faiss_store"` in `main.py`. -/
def FAISS_PATH : String := "faiss_store"

/-- `TEMP_DIR = "temp_files"` in `main.py`. -/
def TEMP_DIR : String := "temp_files"

/-- The persisted filesystem state the service manipulates:
`index = some store` means the directory `FAISS_PATH` exists and holds the
chunk collection `store` (vectors are the embedding provider's opaque
output and are not modelled separately); `temp` is the contents of
`TEMP_DIR` as filename/content pairs. -/
structure SysState where
  index : Option (List Document)
  temp : List (String × String)
deriving DecidableEq

/-- The external collaborators of `main.py`, abstracted as oracles.  A
`.error msg` result models the library call raising an exception `e` with
`str(e) = msg`. -/
structure Ext where
  /-- `UnstructuredURLLoader(urls=...).load()` -/
  loadUrls : List String → Except String (List Document)
  /-- `PyPDFLoader(path).load()` -/
  loadPdf : String → Except String (List Document)
  /-- `CSVLoader(path).load()` -/
  loadCsv : String → Except String (List Document)
  /-- `TextLoader(path).load()` -/
  loadTxt : String → Except String (List Document)
  /-- `UnstructuredFileLoader(path).load()` -/
  loadOther : String → Except String (List Document)
  /-- `RecursiveCharacterTextSplitter(chunk_size=1000, chunk_overlap=200,
  separators=...).split_documents(documents)` -/
  split : List Document → List Document
  /-- `FAISS.from_documents(docs, OpenAIEmbeddings())`: the embedding calls,
  which may fail on quota/network errors. -/
  embed : List Document → Except String Unit
  /-- `FAISS.load_local(FAISS_PATH, ...)` applied to the persisted store. -/
  loadStore : List Document → Except String (List Document)
  /-- `RetrievalQAWithSourcesChain.from_llm(...)({"question": q})`: returns
  the `answer` string and the raw `sources` field (`none` models a result
  dict without a `"sources"` key). -/
  runChain : List Document → String → Except String (String × Option String)

/-- Successful response bodies of the endpoints. -/
inductive ApiOk where
  /-- `{status, message, documents_loaded, urls_processed, files_processed}` -/
  | ingest (message : String) (documents_loaded urls_processed files_processed : Nat)
  /-- `{status, answer, sources}` from `/query` -/
  | answerWith (answer : String) (sources : List String)
  /-- `{status, message}` from `/reset` -/
  | resetDone (message : String)
deriving DecidableEq

/-- An endpoint outcome: a success body or an HTTP error `{detail}`. -/
inductive ApiResult where
  | ok (body : ApiOk)
  | error (status : Nat) (detail : String)
deriving DecidableEq

/-- Exceptions that can escape an endpoint's `try` block:
`HTTPException(status, detail)`, `json.JSONDecodeError`, or any other
exception with message `str(e)`. -/
inductive PyErr where
  | httpExc (status : Nat) (detail : String)
  | jsonDecode (msg : String)
  | exc (msg : String)
deriving DecidableEq

/-! ## Helpers (`main.py` lines 62-115) -/

/-- Path of a saved upload: `os.path.join(TEMP_DIR, filename)`. -/
def tempPath (name : String) : String :=
  TEMP_DIR ++ "/" ++ name

/-- `os.path.exists(p)` for paths inside the scratch directory. -/
def pathExists (s : SysState) (p : String) : Bool :=
  s.temp.any (fun q => tempPath q.1 == p)

/-- Writing `TEMP_DIR/name` with `open(..., "wb")`: overwrite the file if
present, create it otherwise. -/
def writeTemp (temp : List (String × String)) (name content : String) : List (String × String) :=
  if temp.any (fun q => q.1 == name) then
    temp.map (fun q => if q.1 == name then (name, content) else q)
  else temp ++ [(name, content)]

/-- `save_uploaded_file` (lines 62-67): persist the upload under its
original filename and return the path. -/
def save_uploaded_file (s : SysState) (f : UploadFile) : String × SysState :=
  (tempPath f.filename, { s with temp := writeTemp s.temp f.filename f.content })

/-- The save loops of `process_files`/`process_sources`: save each upload
with a non-empty filename, collecting the paths in order. -/
def saveAll (s : SysState) : List UploadFile → List String × SysState
  | [] => ([], s)
  | f :: rest =>
    if f.filename ≠ "" then
      match saveAll (save_uploaded_file s f).2 rest with
      | (ps, s2) => ((save_uploaded_file s f).1 :: ps, s2)
    else saveAll s rest

/-- Loader dispatch by extension (lines 84-91). -/
def pickLoader (ext : Ext) (file_path : String) : Except String (List Document) :=
  if pyEndsWith file_path ".pdf" then ext.loadPdf file_path
  else if pyEndsWith file_path ".csv" then ext.loadCsv file_path
  else if pyEndsWith file_path ".txt" then ext.loadTxt file_path
  else ext.loadOther file_path

/-- The file loop of `load_documents` (lines 80-93): skip paths that do not
exist, dispatch a loader for the rest, concatenating results in order; a
loader exception propagates. -/
def loadFileDocs (ext : Ext) (e : String → Bool) : List String → Except String (List Document)
  | [] => .ok []
  | p :: rest =>
    if e p then
      match pickLoader ext p with
      | .error m => .error m
      | .ok ds =>
        match loadFileDocs ext e rest with
        | .error m => .error m
        | .ok rs => .ok (ds ++ rs)
    else loadFileDocs ext e rest

/-- `load_documents` (lines 70-95): load the URLs whose stripped form is
non-empty (if any), then the uploaded files, in order. -/
def load_documents (ext : Ext) (e : String → Bool) (urls : List String)
    (uploaded_files : List String) : Except String (List Document) :=
  match (if (urls.filter (fun u => pyStrip u ≠ "")).isEmpty then Except.ok []
         else ext.loadUrls (urls.filter (fun u => pyStrip u ≠ ""))) with
  | .error m => .error m
  | .ok urlDocs =>
    match loadFileDocs ext e uploaded_files with
    | .error m => .error m
    | .ok fileDocs => .ok (urlDocs ++ fileDocs)

/-- `build_vectorstore` (lines 98-110): split the documents, embed the
chunks (which may fail), and persist the result to `FAISS_PATH`,
overwriting whatever was there. -/
def build_vectorstore (ext : Ext) (documents : List Document) (s : SysState) :
    Except String SysState :=
  match ext.embed (ext.split documents) with
  | .error m => .error m
  | .ok _ => .ok { s with index := some (ext.split documents) }

/-! ## `json.loads` fragment

`process_sources` feeds the stripped `urls` form field to `json.loads` only
when it starts with `[`, so the successful outcomes the repository can see
are JSON arrays.  The model parses arrays of JSON string literals (with the
basic escapes); any other input yields `none`, modelling
`json.JSONDecodeError`. -/

/-- JSON insignificant whitespace. -/
def jsonWsChar (c : Char) : Bool :=
  c == ' ' || c == '\t' || c == '\n' || c == '\r'

/-- Skip JSON whitespace. -/
def jsonSkipWs : List Char → List Char
  | [] => []
  | c :: rest => if jsonWsChar c then jsonSkipWs rest else c :: rest

/-- Parse the body of a JSON string literal (the opening quote already
consumed); returns the decoded characters and the input after the closing
quote. -/
def jsonStrBody : List Char → Option (List Char × List Char)
  | [] => none
  | c :: rest =>
    if c == '"' then some ([], rest)
    else if c == '\\' then
      match rest with
      | [] => none
      | e :: rest2 =>
        match (if e == '"' then some '"'
               else if e == '\\' then some '\\'
               else if e == '/' then some '/'
               else if e == 'n' then some '\n'
               else if e == 't' then some '\t'
               else if e == 'r' then some '\r'
               else none) with
        | none => none
        | some d =>
          match jsonStrBody rest2 with
          | none => none
          | some (cs, r) => some (d :: cs, r)
    else
      match jsonStrBody rest with
      | none => none
      | some (cs, r) => some (c :: cs, r)

/-- Parse the elements of a non-empty JSON string array, starting right
after `[` or `,`; returns the strings and the input after `]`. -/
def jsonElems (fuel : Nat) (cs : List Char) : Option (List String × List Char) :=
  match fuel with
  | 0 => none
  | fuel + 1 =>
    match jsonSkipWs cs with
    | '"' :: rest =>
      match jsonStrBody rest with
      | none => none
      | some (body, rest2) =>
        match jsonSkipWs rest2 with
        | ',' :: rest3 =>
          match jsonElems fuel rest3 with
          | none => none
          | some (xs, r) => some (String.mk body :: xs, r)
        | ']' :: rest3 => some ([String.mk body], rest3)
        | _ => none
    | _ => none

/-- `json.loads` restricted to arrays of JSON string literals; `none`
models `json.JSONDecodeError`. -/
def jsonLoadsStrArray (input : String) : Option (List String) :=
  match jsonSkipWs input.data with
  | '[' :: rest =>
    match (match jsonSkipWs rest with
           | ']' :: r => some (([] : List String), r)
           | _ => jsonElems (rest.length + 1) rest) with
    | none => none
    | some (xs, r) => if (jsonSkipWs r).isEmpty then some xs else none
  | _ => none

/-! ## Endpoints (`main.py` lines 128-313)

Each endpoint is split into a `..._try` body — the code inside the Python
`try:` block, returning the raised `PyErr` when an exception escapes,
together with the state as mutated so far — and a wrapper applying that
endpoint's actual `except` clauses. -/

/-- The URL-parsing section of `process_sources` (lines 206-224): JSON
array if the stripped field starts with `[`, else comma-separated, else a
single bare URL; `.error` models an escaping `json.JSONDecodeError`. -/
def parse_sources_urls (urls : Option String) : Except Unit (List String) :=
  match urls with
  | none => .ok []
  | some raw =>
    if raw = "" then .ok []
    else if pyStartsWith (pyStrip raw) '[' then
      match jsonLoadsStrArray (pyStrip raw) with
      | some l => .ok l
      | none => .error ()
    else if (pyStrip raw).data.contains ',' then
      .ok (((pySplit (pyStrip raw) ',').filter (fun x => pyStrip x ≠ "")).map pyStrip)
    else if pyStrip raw ≠ "" then .ok [pyStrip raw] else .ok []

/-- The `try:` body of `POST /process-urls` (lines 134-153). -/
def process_urls_try (ext : Ext) (s : SysState) (urls : List String) :
    Except PyErr ApiOk × SysState :=
  match (urls.filter (fun u => pyStrip u ≠ "")).map pyStrip with
  | [] => (.error (.httpExc 400 "Please provide at least one URL"), s)
  | url_list =>
    match load_documents ext (pathExists s) url_list [] with
    | .error m => (.error (.exc m), s)
    | .ok docs =>
      if docs.isEmpty then
        (.error (.httpExc 400 "No documents loaded from provided URLs"), s)
      else
        match build_vectorstore ext docs s with
        | .error m => (.error (.exc m), s)
        | .ok s2 =>
          (.ok (.ingest "URLs processed successfully" docs.length url_list.length 0), s2)

/-- `POST /process-urls` (lines 128-157): `except HTTPException: raise`
re-raises the 400s; `except Exception` turns anything else into a 500. -/
def process_urls (ext : Ext) (s : SysState) (urls : List String) : ApiResult × SysState :=
  match process_urls_try ext s urls with
  | (.ok r, s2) => (.ok r, s2)
  | (.error (.httpExc st d), s2) => (.error st d, s2)
  | (.error (.jsonDecode m), s2) => (.error 500 m, s2)
  | (.error (.exc m), s2) => (.error 500 m, s2)

/-- The `try:` body of `POST /process-files` (lines 164-192). -/
def process_files_try (ext : Ext) (s : SysState) (files : List UploadFile) :
    Except PyErr ApiOk × SysState :=
  if files.isEmpty then (.error (.httpExc 400 "Please upload at least one file"), s)
  else
    match saveAll s files with
    | (paths, s1) =>
      if paths.isEmpty then (.error (.httpExc 400 "No valid files provided"), s1)
      else
        match load_documents ext (pathExists s1) [] paths with
        | .error m => (.error (.exc m), s1)
        | .ok docs =>
          if docs.isEmpty then
            (.error (.httpExc 400 "No documents loaded from provided files"), s1)
          else
            match build_vectorstore ext docs s1 with
            | .error m => (.error (.exc m), s1)
            | .ok s2 =>
              (.ok (.ingest "Files processed successfully" docs.length 0 paths.length), s2)

/-- `POST /process-files` (lines 159-196): same `except` clauses as
`process_urls`. -/
def process_files (ext : Ext) (s : SysState) (files : List UploadFile) :
    ApiResult × SysState :=
  match process_files_try ext s files with
  | (.ok r, s2) => (.ok r, s2)
  | (.error (.httpExc st d), s2) => (.error st d, s2)
  | (.error (.jsonDecode m), s2) => (.error 500 m, s2)
  | (.error (.exc m), s2) => (.error 500 m, s2)

/-- The `try:` body of `POST /process-sources` (lines 205-254).  The
`JSONDecodeError` message is discarded by the handler, so a placeholder is
used. -/
def process_sources_try (ext : Ext) (s : SysState) (urls : Option String)
    (files : Option (List UploadFile)) : Except PyErr ApiOk × SysState :=
  match parse_sources_urls urls with
  | .error _ => (.error (.jsonDecode "Expecting value"), s)
  | .ok url_list =>
    match saveAll s (files.getD []) with
    | (uploaded_file_paths, s1) =>
      if url_list.isEmpty && uploaded_file_paths.isEmpty then
        (.error (.httpExc 400 "Please provide at least one URL or file"), s1)
      else
        match load_documents ext (pathExists s1) url_list uploaded_file_paths with
        | .error m => (.error (.exc m), s1)
        | .ok docs =>
          if docs.isEmpty then
            (.error (.httpExc 400 "No documents loaded from provided sources"), s1)
          else
            match build_vectorstore ext docs s1 with
            | .error m => (.error (.exc m), s1)
            | .ok s2 =>
              (.ok (.ingest "Sources processed successfully" docs.length
                url_list.length uploaded_file_paths.length), s2)

/-- `POST /process-sources` (lines 198-258).  Its `except` clauses are
`except json.JSONDecodeError` (→ 400) and `except Exception` (→ 500).
Unlike the sibling endpoints there is NO `except HTTPException: raise`, and
`HTTPException` is an `Exception` subclass, so an `HTTPException(400, d)`
raised inside the body is caught by the catch-all and re-raised as a 500
whose detail is `str(e) = "400: " + d` (Starlette renders
`HTTPException.__str__` as `"{status_code}: {detail}"`). -/
def process_sources (ext : Ext) (s : SysState) (urls : Option String)
    (files : Option (List UploadFile)) : ApiResult × SysState :=
  match process_sources_try ext s urls files with
  | (.ok r, s2) => (.ok r, s2)
  | (.error (.jsonDecode _), s2) =>
    (.error 400 "URLs must be valid JSON array format or comma-separated string", s2)
  | (.error (.httpExc st d), s2) => (.error 500 (toString st ++ ": " ++ d), s2)
  | (.error (.exc m), s2) => (.error 500 m, s2)

/-- Lines 280-281: the raw `sources` field (a newline-delimited string, or
an absent/empty field) split on newlines, entries stripped, empties
dropped. -/
def postprocessSources (raw : Option String) : List String :=
  ((match raw with
    | some r => if r ≠ "" then pySplit r '\n' else []
    | none => []).filter (fun x => pyStrip x ≠ "")).map pyStrip

/-- The `try:` body of `POST /query` (lines 266-287). -/
def query_documents_try (ext : Ext) (s : SysState) (question : String) :
    Except PyErr ApiOk × SysState :=
  match s.index with
  | none => (.error (.httpExc 400 "Please process sources first"), s)
  | some stored =>
    match ext.loadStore stored with
    | .error m => (.error (.exc m), s)
    | .ok vs =>
      match ext.runChain vs question with
      | .error m => (.error (.exc m), s)
      | .ok (answer, rawSources) =>
        (.ok (.answerWith answer (postprocessSources rawSources)), s)

/-- `POST /query` (lines 261-291): `except HTTPException: raise`, then
`except Exception` → 500. -/
def query_documents (ext : Ext) (s : SysState) (question : String) :
    ApiResult × SysState :=
  match query_documents_try ext s question with
  | (.ok r, s2) => (.ok r, s2)
  | (.error (.httpExc st d), s2) => (.error st d, s2)
  | (.error (.jsonDecode m), s2) => (.error 500 m, s2)
  | (.error (.exc m), s2) => (.error 500 m, s2)

/-- `POST /reset` (lines 297-313): remove `FAISS_PATH` and `TEMP_DIR` if
present, recreate an empty `TEMP_DIR` (filesystem errors are outside the
model, so the call always succeeds). -/
def reset (_s : SysState) : ApiResult × SysState :=
  (.ok (.resetDone "Reset completed"), { index := none, temp := [] })

/-! ## Concrete oracles and states used by witnesses -/

/-- A fixed document. -/
def docOne : Document := ⟨"hello world", "u1"⟩

/-- An oracle whose loaders always produce `docOne`, whose splitter is the
identity, and whose chain answers with a single source. -/
def extOne : Ext where
  loadUrls := fun _ => .ok [docOne]
  loadPdf := fun _ => .ok [docOne]
  loadCsv := fun _ => .ok [docOne]
  loadTxt := fun _ => .ok [docOne]
  loadOther := fun _ => .ok [docOne]
  split := fun l => l
  embed := fun _ => .ok ()
  loadStore := fun l => .ok l
  runChain := fun _ _ => .ok ("ans", some "u1")

/-- An oracle whose loaders produce no documents at all. -/
def extEmpty : Ext where
  loadUrls := fun _ => .ok []
  loadPdf := fun _ => .ok []
  loadCsv := fun _ => .ok []
  loadTxt := fun _ => .ok []
  loadOther := fun _ => .ok []
  split := fun l => l
  embed := fun _ => .ok ()
  loadStore := fun l => .ok l
  runChain := fun _ _ => .ok ("ans", none)

/-- An oracle whose chain reports the same source identifier twice in the
raw newline-delimited `sources` field. -/
def extDup : Ext where
  loadUrls := fun _ => .ok [docOne]
  loadPdf := fun _ => .ok [docOne]
  loadCsv := fun _ => .ok [docOne]
  loadTxt := fun _ => .ok [docOne]
  loadOther := fun _ => .ok [docOne]
  split := fun l => l
  embed := fun _ => .ok ()
  loadStore := fun l => .ok l
  runChain := fun _ _ => .ok ("ans", some "a\na")

/-- The post-processing of the raw `sources` field as claim C3 states it:
split on newlines, trim, drop empties, and deduplicate.  Follows the
claim's words, for comparison with the code's `postprocessSources`. -/
def specDedupSources (raw : String) : List String :=
  (((pySplit raw '\n').filter (fun x => pyStrip x ≠ "")).map pyStrip).dedup

/-! ## Shared lemmas -/

theorem head?_dropWhile_false {α : Type} (p : α → Bool) :
    ∀ (l : List α) (a : α), (l.dropWhile p).head? = some a → p a = false := by
  intro l
  induction l with
  | nil => intro a h; simp [List.dropWhile] at h
  | cons c l ih =>
    intro a h
    rw [List.dropWhile_cons] at h
    by_cases hc : p c
    · rw [if_pos hc] at h
      exact ih a h
    · rw [if_neg hc] at h
      simp only [List.head?_cons, Option.some.injEq] at h
      rw [← h]
      exact Bool.eq_false_iff.mpr hc

theorem dropWhile_eq_self {α : Type} (p : α → Bool) (l : List α)
    (h : ∀ a, l.head? = some a → p a = false) : l.dropWhile p = l := by
  cases l with
  | nil => rfl
  | cons c l =>
    rw [List.dropWhile_cons, if_neg]
    rw [h c rfl]
    simp

theorem dropTrail_head? :
    ∀ (l : List Char) (c : Char), (dropTrail l).head? = some c → l.head? = some c := by
  intro l
  cases l with
  | nil => intro c h; simp [dropTrail] at h
  | cons a l =>
    intro c h
    cases hd : dropTrail l with
    | nil =>
      rw [dropTrail, hd] at h
      by_cases hw : pyWs a
      · rw [if_pos hw] at h; simp at h
      · rw [if_neg hw] at h
        simp only [List.head?_cons, Option.some.injEq] at h ⊢
        exact h
    | cons b r =>
      rw [dropTrail, hd] at h
      simp only [List.head?_cons, Option.some.injEq] at h ⊢
      exact h

theorem dropTrail_idem : ∀ l : List Char, dropTrail (dropTrail l) = dropTrail l := by
  intro l
  induction l with
  | nil => rfl
  | cons c l ih =>
    cases hd : dropTrail l with
    | nil =>
      rw [dropTrail, hd]
      by_cases hw : pyWs c
      · rw [if_pos hw]; rfl
      · rw [if_neg hw]
        show dropTrail [c] = [c]
        rw [dropTrail]
        show (match dropTrail [] with
          | [] => if pyWs c then [] else [c]
          | r => c :: r) = [c]
        rw [show dropTrail [] = [] from rfl]
        rw [if_neg hw]
    | cons b r =>
      rw [dropTrail, hd]
      have h2 : dropTrail (b :: r) = b :: r := by rw [← hd, ih]
      show dropTrail (c :: b :: r) = c :: b :: r
      rw [dropTrail, h2]

theorem pyStrip_idem (s : String) : pyStrip (pyStrip s) = pyStrip s := by
  show String.mk (dropTrail (List.dropWhile pyWs (dropTrail (List.dropWhile pyWs s.data)))) =
    String.mk (dropTrail (List.dropWhile pyWs s.data))
  rw [dropWhile_eq_self pyWs (dropTrail (List.dropWhile pyWs s.data))
    (fun a ha => head?_dropWhile_false pyWs s.data a (dropTrail_head? _ a ha))]
  rw [dropTrail_idem]

theorem saveAll_index :
    ∀ (files : List UploadFile) (s : SysState), ((saveAll s files).2).index = s.index := by
  intro files
  induction files with
  | nil => intro s; rfl
  | cons f rest ih =>
    intro s
    by_cases h : f.filename = ""
    · simp only [saveAll, h, ne_eq, not_true_eq_false, if_false]
      exact ih s
    · simp only [saveAll, ne_eq, h, not_false_eq_true, if_true]
      cases hs : saveAll (save_uploaded_file s f).2 rest with
      | mk ps s2 =>
        have hix := ih (save_uploaded_file s f).2
        rw [hs] at hix
        exact hix

theorem build_vectorstore_ok {ext : Ext} {D : List Document} {s t : SysState}
    (h : build_vectorstore ext D s = .ok t) : t = ⟨some (ext.split D), s.temp⟩ := by
  unfold build_vectorstore at h
  cases he : ext.embed (ext.split D) with
  | error m => rw [he] at h; exact absurd h (by simp)
  | ok u =>
    rw [he] at h
    simp only [Except.ok.injEq] at h
    rw [← h]

theorem process_urls_snd (ext : Ext) (s : SysState) (urls : List String) :
    (process_urls ext s urls).2 = (process_urls_try ext s urls).2 := by
  unfold process_urls
  cases h : process_urls_try ext s urls with
  | mk r s2 =>
    cases r with
    | ok b => rfl
    | error e => cases e <;> rfl

theorem process_files_snd (ext : Ext) (s : SysState) (files : List UploadFile) :
    (process_files ext s files).2 = (process_files_try ext s files).2 := by
  unfold process_files
  cases h : process_files_try ext s files with
  | mk r s2 =>
    cases r with
    | ok b => rfl
    | error e => cases e <;> rfl

theorem process_sources_snd (ext : Ext) (s : SysState) (urls : Option String)
    (files : Option (List UploadFile)) :
    (process_sources ext s urls files).2 = (process_sources_try ext s urls files).2 := by
  unfold process_sources
  cases h : process_sources_try ext s urls files with
  | mk r s2 =>
    cases r with
    | ok b => rfl
    | error e => cases e <;> rfl

theorem query_documents_snd (ext : Ext) (s : SysState) (q : String) :
    (query_documents ext s q).2 = (query_documents_try ext s q).2 := by
  unfold query_documents
  cases h : query_documents_try ext s q with
  | mk r s2 =>
    cases r with
    | ok b => rfl
    | error e => cases e <;> rfl

theorem loadFileDocs_filter (ext : Ext) (e : String → Bool) :
    ∀ fs : List String, loadFileDocs ext e fs = loadFileDocs ext e (fs.filter e) := by
  intro fs
  induction fs with
  | nil => rfl
  | cons p rest ih =>
    by_cases hp : e p
    · simp only [List.filter_cons, hp, if_true, loadFileDocs, ih]
    · simp only [List.filter_cons, hp, if_false, Bool.false_eq_true, loadFileDocs, ih]

/-! ## Claims -/

/-- C1: the claim says all three intake entry points reject an empty
request with HTTP 400 and never a 500.  This holds for `process_urls` and
`process_files`, but `process_sources` — which lacks the
`except HTTPException: raise` clause its siblings have — rewraps its own
`HTTPException(400, "Please provide at least one URL or file")` in the
catch-all and answers HTTP 500.  This theorem evaluates all three handlers
on the empty request, exhibiting the divergence. -/
theorem C1_empty_intake_status (ext : Ext) (s : SysState) :
    process_urls ext s [] = (.error 400 "Please provide at least one URL", s)
    ∧ process_files ext s [] = (.error 400 "Please upload at least one file", s)
    ∧ process_sources ext s none none =
        (.error 500 "400: Please provide at least one URL or file", s) :=
  ⟨rfl, rfl, rfl⟩

/-- C2, counterexample: the input `'[" a "]'` is an accepted JSON-array
shape, yet the resulting URL list is `[" a "]`, whose only element is not
trimmed — refuting the claim that every accepted input shape yields only
trimmed, non-empty strings. -/
theorem C2_json_untrimmed_counterexample :
    parse_sources_urls (some "[\" a \"]") = Except.ok [" a "]
    ∧ pyStrip " a " ≠ " a " :=
  ⟨rfl, by decide⟩

/-- C2, amended: `'["a","b"]'` parses to `["a","b"]`, `"a, b"` to
`["a","b"]`, `"a"` to `["a"]`, and `"[invalid"` yields a 400 response with
the JSON-format error message; the comma-separated and bare-string shapes
yield only trimmed, non-empty strings, while the JSON-array shape is used
exactly as parsed (elements are not trimmed and may be empty). -/
theorem C2_url_parsing :
    parse_sources_urls (some "[\"a\",\"b\"]") = Except.ok ["a", "b"]
    ∧ parse_sources_urls (some "a, b") = Except.ok ["a", "b"]
    ∧ parse_sources_urls (some "a") = Except.ok ["a"]
    ∧ (∀ (ext : Ext) (s : SysState) (files : Option (List UploadFile)),
        process_sources ext s (some "[invalid") files =
          (.error 400 "URLs must be valid JSON array format or comma-separated string", s))
    ∧ (∀ (raw : String) (l : List String) (x : String),
        parse_sources_urls (some raw) = Except.ok l →
        pyStartsWith (pyStrip raw) '[' = false →
        x ∈ l → pyStrip x = x ∧ x ≠ "") := by
  refine ⟨rfl, rfl, rfl, fun ext s files => rfl, ?_⟩
  intro raw l x hp hb hx
  simp only [parse_sources_urls] at hp
  by_cases h0 : raw = ""
  · rw [if_pos h0] at hp
    simp only [Except.ok.injEq] at hp
    rw [← hp] at hx
    simp at hx
  · rw [if_neg h0] at hp
    rw [hb] at hp
    simp only [Bool.false_eq_true, if_false] at hp
    by_cases hc : (pyStrip raw).data.contains ','
    · rw [if_pos hc] at hp
      simp only [Except.ok.injEq] at hp
      rw [← hp] at hx
      obtain ⟨y, hy, hxy⟩ := List.mem_map.mp hx
      have hyne : pyStrip y ≠ "" := by
        have := List.mem_filter.mp hy
        simpa using this.2
      rw [← hxy]
      exact ⟨pyStrip_idem y, hyne⟩
    · rw [if_neg hc] at hp
      by_cases he : pyStrip raw = ""
      · rw [if_neg (by simpa using he)] at hp
        simp only [Except.ok.injEq] at hp
        rw [← hp] at hx
        simp at hx
      · rw [if_pos (by simpa using he)] at hp
        simp only [Except.ok.injEq] at hp
        rw [← hp] at hx
        rw [List.mem_singleton] at hx
        rw [hx]
        exact ⟨pyStrip_idem raw, he⟩

/-- C2, witness for the amended theorem, at the comma-separated input
`"a, b"` and its element `"b"`. -/
theorem C2_url_parsing_witness : pyStrip "b" = "b" ∧ "b" ≠ "" :=
  C2_url_parsing.2.2.2.2 "a, b" ["a", "b"] "b" rfl rfl (by decide)

/-- C3, counterexample: with the model's raw sources field `"a\na"`, the
query response's `sources` list is `["a", "a"]`, which still contains the
duplicate — not the deduplicated `["a"]` the claim requires. -/
theorem C3_sources_not_deduplicated_counterexample :
    query_documents extDup ⟨some [docOne], []⟩ "q" =
      (.ok (.answerWith "ans" ["a", "a"]), ⟨some [docOne], []⟩)
    ∧ specDedupSources "a\na" = ["a"]
    ∧ (["a", "a"] : List String) ≠ ["a"] :=
  ⟨rfl, by decide, by decide⟩

/-- C3, amended: every successful `/query` response's `sources` field is
the model's raw newline-delimited sources string split on newlines, each
entry trimmed and empty entries removed — duplicates are NOT removed. -/
theorem C3_sources_postprocessing (ext : Ext) (s : SysState) (stored vs : List Document)
    (q ans : String) (raw : Option String)
    (h1 : s.index = some stored) (h2 : ext.loadStore stored = .ok vs)
    (h3 : ext.runChain vs q = .ok (ans, raw)) :
    query_documents ext s q =
      (.ok (.answerWith ans (((match raw with
          | some r => if r ≠ "" then pySplit r '\n' else []
          | none => []).filter (fun x => pyStrip x ≠ "")).map pyStrip)), s) := by
  simp only [query_documents, query_documents_try, postprocessSources, h1, h2, h3]

/-- C3, witness for the amended theorem, with raw sources `"a\na"`. -/
theorem C3_sources_postprocessing_witness :
    query_documents extDup ⟨some [docOne], []⟩ "q2" =
      (.ok (.answerWith "ans" ((((some "a\na").elim [] fun r =>
        if r ≠ "" then pySplit r '\n' else []).filter
          (fun x => pyStrip x ≠ "")).map pyStrip)), ⟨some [docOne], []⟩) := by
  have := C3_sources_postprocessing extDup ⟨some [docOne], []⟩ [docOne] [docOne]
    "q2" "ans" (some "a\na") rfl rfl rfl
  exact this

/-- C4: after any Reset, the response is the success body and the next
Query — whatever the oracle and question — fails with the 400
"Please process sources first" error, regardless of the prior state. -/
theorem C4_reset_then_query (ext : Ext) (s : SysState) (q : String) :
    (reset s).1 = .ok (.resetDone "Reset completed")
    ∧ query_documents ext ((reset s).2) q =
        (.error 400 "Please process sources first", (reset s).2) :=
  ⟨rfl, rfl⟩

/-- C5: every successful `build_vectorstore` run leaves exactly the index
built from its document argument alone (the split of `D`), regardless of
whatever index the prior state held, and leaves the scratch directory
untouched — a full replacement, never an incremental merge. -/
theorem C5_index_rebuilt_from_docs (ext : Ext) (D : List Document) (s t : SysState)
    (h : build_vectorstore ext D s = .ok t) :
    t = ⟨some (ext.split D), s.temp⟩ :=
  build_vectorstore_ok h

/-- C5, witness: rebuilding over a state that already holds a different
index replaces it with the index of the new documents alone. -/
theorem C5_index_rebuilt_from_docs_witness :
    (⟨some [docOne], []⟩ : SysState) = ⟨some (extOne.split [docOne]), []⟩ :=
  C5_index_rebuilt_from_docs extOne [docOne] ⟨some [], []⟩ ⟨some [docOne], []⟩ rfl

/-- C6: a `/query` request fails with the 400 "Please process sources
first" error exactly when no index exists on disk; when the index exists
the precondition check passes, and any later failure surfaces as a 500,
never as that error. -/
theorem C6_query_precondition_iff (ext : Ext) (s : SysState) (q : String) :
    (query_documents ext s q).1 = .error 400 "Please process sources first"
      ↔ s.index = none := by
  cases h : s.index with
  | none => simp [query_documents, query_documents_try, h]
  | some stored =>
    simp only [query_documents, query_documents_try, h]
    cases hl : ext.loadStore stored with
    | error m => simp [hl]
    | ok vs =>
      cases hc : ext.runChain vs q with
      | error m => simp [hl, hc]
      | ok p =>
        cases p with
        | mk a r => simp [hl, hc]

/-- C7: Reset is idempotent — two consecutive calls return the identical
success response and state — it succeeds from the already-empty state, and
the resulting state is always the same: no index, empty scratch
directory. -/
theorem C7_reset_idempotent (s : SysState) :
    reset ((reset s).2) = reset s
    ∧ (reset s).1 = .ok (.resetDone "Reset completed")
    ∧ (reset s).2 = ⟨none, []⟩
    ∧ reset ⟨none, []⟩ = (.ok (.resetDone "Reset completed"), ⟨none, []⟩) :=
  ⟨rfl, rfl, rfl, rfl⟩

/-- C8: Query never mutates any persisted state; Reset always leaves no
index; and each ingest endpoint either leaves the index untouched (on any
failure) or overwrites it with a freshly built one — so Indexing is the
only operation that creates or overwrites the index and Reset the only one
that deletes it. -/
theorem C8_query_frame :
    (∀ (ext : Ext) (s : SysState) (q : String), (query_documents ext s q).2 = s)
    ∧ (∀ s : SysState, ((reset s).2).index = none)
    ∧ (∀ (ext : Ext) (s : SysState) (urls : List String),
        ((process_urls ext s urls).2).index = s.index
        ∨ ∃ d, ((process_urls ext s urls).2).index = some (ext.split d))
    ∧ (∀ (ext : Ext) (s : SysState) (files : List UploadFile),
        ((process_files ext s files).2).index = s.index
        ∨ ∃ d, ((process_files ext s files).2).index = some (ext.split d))
    ∧ (∀ (ext : Ext) (s : SysState) (urls : Option String)
        (files : Option (List UploadFile)),
        ((process_sources ext s urls files).2).index = s.index
        ∨ ∃ d, ((process_sources ext s urls files).2).index = some (ext.split d)) := by
  refine ⟨?_, fun s => rfl, ?_, ?_, ?_⟩
  · intro ext s q
    rw [query_documents_snd]
    unfold query_documents_try
    split
    · rfl
    · split
      · rfl
      · split
        · rfl
        · rfl
  · intro ext s urls
    rw [process_urls_snd]
    unfold process_urls_try
    split
    · exact Or.inl rfl
    · split
      · exact Or.inl rfl
      · split
        · exact Or.inl rfl
        · split
          · exact Or.inl rfl
          · rename_i hbv
            exact Or.inr ⟨_, by rw [build_vectorstore_ok hbv]⟩
  · intro ext s files
    rw [process_files_snd]
    unfold process_files_try
    split
    · exact Or.inl rfl
    · split
      rename_i paths s1 hsv
      have hs1 : s1.index = s.index := by
        have := saveAll_index files s
        rw [hsv] at this
        exact this
      split
      · exact Or.inl hs1
      · split
        · exact Or.inl hs1
        · split
          · exact Or.inl hs1
          · split
            · exact Or.inl hs1
            · rename_i hbv
              exact Or.inr ⟨_, by rw [build_vectorstore_ok hbv]⟩
  · intro ext s urls files
    rw [process_sources_snd]
    unfold process_sources_try
    split
    · exact Or.inl rfl
    · split
      rename_i paths s1 hsv
      have hs1 : s1.index = s.index := by
        have := saveAll_index (files.getD []) s
        rw [hsv] at this
        exact this
      split
      · exact Or.inl hs1
      · split
        · exact Or.inl hs1
        · split
          · exact Or.inl hs1
          · split
            · exact Or.inl hs1
            · rename_i hbv
              exact Or.inr ⟨_, by rw [build_vectorstore_ok hbv]⟩

/-- C9: neither ingest endpoint that saves uploads ever cleans the scratch
directory up again — after any outcome (including every failure) the
scratch contents are exactly those left by the save loop — and concretely,
when the loaders extract no documents the request fails after the upload
was saved, and the saved copy remains. -/
theorem C9_no_cleanup_on_ingest_failure :
    (∀ (ext : Ext) (s : SysState) (files : List UploadFile),
        ((process_sources ext s none (some files)).2).temp = ((saveAll s files).2).temp)
    ∧ (∀ (ext : Ext) (s : SysState) (files : List UploadFile),
        ((process_files ext s files).2).temp = ((saveAll s files).2).temp)
    ∧ process_sources extEmpty ⟨none, []⟩ none (some [⟨"a.txt", "x"⟩]) =
        (.error 500 "400: No documents loaded from provided sources",
          ⟨none, [("a.txt", "x")]⟩) := by
  refine ⟨?_, ?_, rfl⟩
  · intro ext s files
    rw [process_sources_snd]
    unfold process_sources_try
    simp only [Option.getD]
    split
    · rename_i hparse
      exact absurd hparse (by simp [parse_sources_urls])
    · split
      · rfl
      · split
        · rfl
        · split
          · rfl
          · split
            · rfl
            · rename_i hbv
              rw [build_vectorstore_ok hbv]
  · intro ext s files
    rw [process_files_snd]
    cases files with
    | nil => rfl
    | cons f rest =>
      unfold process_files_try
      split
      · rename_i hemp
        simp at hemp
      · split
        rename_i paths s1 hsv
        have hs1 : s1.temp = (saveAll s (f :: rest)).2.temp := by rw [hsv]
        split
        · exact hs1
        · split
          · exact hs1
          · split
            · exact hs1
            · split
              · exact hs1
              · rename_i hbv
                rw [build_vectorstore_ok hbv]
                exact hs1

/-- C10: `load_documents` silently skips every uploaded-file path that does
not exist on disk — loading a path list is the same as loading only its
existing paths, and a list of only nonexistent paths contributes no
documents and raises no error. -/
theorem C10_load_documents_skips_missing (ext : Ext) (e : String → Bool)
    (urls files : List String) :
    load_documents ext e urls files = load_documents ext e urls (files.filter e)
    ∧ loadFileDocs ext e (files.filter (fun p => ! e p)) = Except.ok [] := by
  constructor
  · unfold load_documents
    rw [loadFileDocs_filter]
  · rw [loadFileDocs_filter]
    rw [List.filter_filter]
    have : List.filter (fun p => e p && ! e p) files = [] := by
      induction files with
      | nil => rfl
      | cons p rest ih =>
        rw [List.filter_cons]
        cases hp : e p <;> simp [ih]
    rw [this]
    rfl

end InsightForce
